import Mathlib

/-!
Formal model of the authentication/user-listing core of the
`backend-boilerplate` repository (Express + Prisma + JWT), together with
proofs of its specified properties.

The only controller present in the source tree is
`src/controllers/user.controller.ts` (`getUsers`); it is embedded
faithtfully below.  The credential service (`register`, `login`), the JWT
utilities and the token-guard middleware are referenced by the source
(imports, routes, README) but their files are not in the tree, so they are
modelled from the specification; each such definition carries a doc
comment starting `Modelled from the spec:`.  Cryptographic primitives
(bcrypt, HMAC signatures) are embedded symbolically, as is standard in
protocol verification: a hash/signature is an opaque value that can be
compared for equality, and the model does not attempt to capture
one-wayness.
-/

namespace Boilerplate

/-- Symbolic model of a bcrypt password hash: an opaque value recording the
salt and the password it was derived from.  Verification succeeds exactly
when the candidate password matches the one originally hashed; one-wayness
of the real primitive is not modelled. -/
structure HashedPassword where
  salt : String
  text : String
deriving DecidableEq, Repr

/-- Modelled from the spec: `src/utils/password.ts` (bcrypt hashing) is not
in the tree.  "compute a salted one-way hash of `password`". -/
def hashPassword (salt password : String) : HashedPassword :=
  ⟨salt, password⟩

/-- Modelled from the spec: `src/utils/password.ts` (bcrypt comparison) is
not in the tree.  "Comparison of the supplied password against the stored
hash must use the hashing function's own verification routine". -/
def verifyPassword (password : String) (stored : HashedPassword) : Bool :=
  stored.text == password

/-- The persisted `User` row, exactly as in `prisma/schema.prisma`:
`id`, `email`, unique, optional `name`, `password` (the bcrypt hash),
`createdAt`, `updatedAt`.  Timestamps are modelled as naturals. -/
structure User where
  id : String
  email : String
  name : Option String
  password : HashedPassword
  createdAt : Nat
  updatedAt : Nat
deriving DecidableEq, Repr

/-- The public projection serialized by `GET /api/users`: exactly the five
fields selected in `user.controller.ts` (`id`, `email`, `name`,
`createdAt`, `updatedAt`). -/
structure PublicUser where
  id : String
  email : String
  name : Option String
  createdAt : Nat
  updatedAt : Nat
deriving DecidableEq, Repr

/-- The `select` projection of `prisma.user.findMany` in
`user.controller.ts`. -/
def toPublic (u : User) : PublicUser :=
  ⟨u.id, u.email, u.name, u.createdAt, u.updatedAt⟩

/-- Failure of the storage collaborator (Prisma/PostgreSQL), opaque to the
handler. -/
inductive StoreError where
  | unreachable
  | queryFailed (detail : String)
deriving DecidableEq, Repr

/-- A JSON response body: either a serialized user list or an
`{ error: msg }` object. -/
inductive ResponseBody where
  | userList (users : List PublicUser)
  | errObj (msg : String)
deriving DecidableEq, Repr

/-- An HTTP response: status code plus JSON body. -/
structure HttpResponse where
  status : Nat
  body : ResponseBody
deriving DecidableEq, Repr

/-- Embedding of `getUsers` from `src/controllers/user.controller.ts`:
the storage round trip (`prisma.user.findMany` with the five-field
`select`) is passed in as its result; on success the handler answers 200
with the projected list (`res.json(users)`), and the `catch` block turns
any storage error into a 500 with the fixed body
`{ error: "Internal server error" }`. -/
def getUsers (fetched : Except StoreError (List User)) : HttpResponse :=
  match fetched with
  | .ok users => ⟨200, .userList (users.map toPublic)⟩
  | .error _ => ⟨500, .errObj "Internal server error"⟩

/-- The claim set carried by a token: "`subject`: the User's `id`;
`issuedAt`, `expiresAt`: derived from a configured time-to-live". -/
structure Claim where
  subject : String
  issuedAt : Nat
  expiresAt : Nat
deriving DecidableEq, Repr

/-- A signed bearer token: the claim together with its signature.  The
signature is modelled symbolically as the pair of the signing secret and
the signed claim, so two signatures agree exactly when both the secret and
the claim agree — the symbolic counterpart of an unforgeable MAC. -/
structure Token where
  claim : Claim
  sig : String × Claim
deriving DecidableEq, Repr

/-- Modelled from the spec: `src/utils/jwt.ts` (token signing) is not in
the tree.  "Signed as an opaque bearer string; the signature binds
subject + expiry to a shared secret". -/
def signToken (secret : String) (c : Claim) : Token :=
  ⟨c, (secret, c)⟩

/-- Modelled from the spec: `src/utils/jwt.ts` (token verification) is not
in the tree.  "Verify the token's signature against the shared secret and
check `expiresAt` against current time"; returns the resolved subject, or
`none` on an invalid signature or an expired timestamp. -/
def verifyToken (secret : String) (now : Nat) (t : Token) : Option String :=
  if t.sig = (secret, t.claim) ∧ now < t.claim.expiresAt then
    some t.claim.subject
  else
    none

/-- Token minting as performed by `register` and `login`: a token whose
subject is the user's id, issued now, expiring after the configured
time-to-live. -/
def mintToken (secret : String) (now ttl : Nat) (userId : String) : Token :=
  signToken secret ⟨userId, now, now + ttl⟩

/-- The per-request outcome of the Token Guard: VERIFIED with the resolved
subject attached, or REJECTED with an HTTP status and message. -/
inductive GuardResult where
  | verified (subject : String)
  | rejected (status : Nat) (msg : String)
deriving DecidableEq, Repr

/-- The authorization header of an inbound request: absent, present but
not a well-formed `Bearer <token>` value, or a bearer token. -/
inductive AuthHeader where
  | missing
  | malformed (raw : String)
  | bearer (t : Token)
deriving DecidableEq, Repr

/-- Modelled from the spec: `src/middleware/auth.middleware.ts`
(`authenticate`) is not in the tree.  "Absent or malformed header ⇒
REJECTED with unauthenticated.  Invalid signature or expired timestamp ⇒
REJECTED with unauthenticated.  On success, attach the resolved `subject`
to the request context". -/
def authenticate (secret : String) (now : Nat) (hd : AuthHeader) :
    GuardResult :=
  match hd with
  | .missing => .rejected 401 "unauthenticated"
  | .malformed _ => .rejected 401 "unauthenticated"
  | .bearer t =>
    match verifyToken secret now t with
    | some subject => .verified subject
    | none => .rejected 401 "unauthenticated"

/-- Modelled from the spec: `src/routes/user.routes.ts` is not in the
tree.  `GET /api/users` runs the Token Guard before the `getUsers`
handler; a rejection short-circuits with the guard's status and the
handler never runs. -/
def getUsersRoute (secret : String) (now : Nat) (hd : AuthHeader)
    (fetched : Except StoreError (List User)) : HttpResponse :=
  match authenticate secret now hd with
  | .rejected status msg => ⟨status, .errObj msg⟩
  | .verified _ => getUsers fetched

/-- Error taxonomy of the credential service (spec §7). -/
inductive AppError where
  | validation (msg : String)
  | conflict (msg : String)
  | invalidCredentials (msg : String)
  | notFound (msg : String)
  | infrastructure (msg : String)
deriving DecidableEq, Repr

/-- The user projection returned by `register` and `login`:
"`id, email, name, createdAt`". -/
structure AuthUser where
  id : String
  email : String
  name : Option String
  createdAt : Nat
deriving DecidableEq, Repr

/-- Successful outcome of `register`/`login`: the public projection plus
the minted token. -/
structure AuthResult where
  user : AuthUser
  token : Token
deriving DecidableEq, Repr

/-- The storage collaborator's find-by-unique-email operation. -/
def findByEmail (db : List User) (email : String) : Option User :=
  db.find? (fun u => u.email == email)

/-- Spec's input constraint on `email`: "a syntactically plausible
address", modelled minimally as containing an `@`. -/
def validEmail (email : String) : Bool :=
  email.data.contains '@'

/-- Modelled from the spec: `src/controllers/auth.controller.ts`
(`register`) is not in the tree.  Signals conflict when the email already
exists, a validation failure when required fields are missing or
malformed; otherwise hashes the password, persists the new row (with
`createdAt = updatedAt = now`) and mints a token bound to the new user's
id.  Returns the (possibly extended) store and the outcome. -/
def register (secret : String) (now ttl : Nat) (freshId salt : String)
    (db : List User) (email password : String) (name : Option String) :
    List User × Except AppError AuthResult :=
  match findByEmail db email with
  | some _ => (db, .error (.conflict "Email already registered"))
  | none =>
    if validEmail email && !password.isEmpty then
      let u : User :=
        ⟨freshId, email, name, hashPassword salt password, now, now⟩
      (db ++ [u], .ok ⟨⟨freshId, email, name, now⟩,
        mintToken secret now ttl freshId⟩)
    else
      (db, .error (.validation "Invalid email or password"))

/-- Modelled from the spec: `src/controllers/auth.controller.ts` (`login`)
is not in the tree.  "Fetch the user by `email`.  If absent, or if the
one-way hash of the supplied `password` does not match the stored hash,
signal a single undifferentiated invalid credentials failure". -/
def login (secret : String) (now ttl : Nat) (db : List User)
    (email password : String) : Except AppError AuthResult :=
  match findByEmail db email with
  | none => .error (.invalidCredentials "Invalid credentials")
  | some u =>
    if verifyPassword password u.password then
      .ok ⟨⟨u.id, u.email, u.name, u.createdAt⟩,
        mintToken secret now ttl u.id⟩
    else
      .error (.invalidCredentials "Invalid credentials")

/-- The id carried by a successful `register`/`login` outcome. -/
def resultId (r : Except AppError AuthResult) : Option String :=
  match r with
  | .ok a => some a.user.id
  | .error _ => none

end Boilerplate

namespace Boilerplate

/-- C1: the `getUsers` response never depends on the stored password
hashes: replacing every user's `password` field arbitrarily leaves the
response unchanged, so the hash is never serialized into the response. -/
theorem getUsers_never_serializes_password
    (db : List User) (g : User → HashedPassword) :
    getUsers (.ok (db.map (fun u => { u with password := g u }))) =
      getUsers (.ok db) := by
  simp [getUsers, List.map_map]
  intro a _
  rfl

/-- C8: whenever the storage collaborator errors, `getUsers` responds 500
with the fixed generic body, identically for every error (no internal
detail leaks), and the handler returns normally rather than propagating
the failure. -/
theorem getUsers_storage_error_is_generic_500 (e : StoreError) :
    getUsers (.error e) = ⟨500, .errObj "Internal server error"⟩ := by
  rfl

/-- C10: on success `getUsers` serializes, for every stored user, exactly
the five fields `id`, `email`, `name`, `createdAt`, `updatedAt` — the
projection with `updatedAt` included — and nothing else. -/
theorem getUsers_success_projection (db : List User) :
    getUsers (.ok db) =
      ⟨200, .userList (db.map (fun u =>
        ⟨u.id, u.email, u.name, u.createdAt, u.updatedAt⟩))⟩ := by
  rfl

/-- If an email is not found in a store, searching the extended store
starts where the extension begins. -/
lemma findByEmail_append (db1 db2 : List User) (e : String)
    (h : findByEmail db1 e = none) :
    findByEmail (db1 ++ db2) e = findByEmail db2 e := by
  induction db1 with
  | nil => rfl
  | cons a as ih =>
    cases hpa : (a.email == e) with
    | true =>
      exfalso
      simp [findByEmail, List.find?, hpa] at h
    | false =>
      simp only [findByEmail, List.cons_append, List.find?, hpa] at h ⊢
      exact ih h

/-- C2: login with a registered email but wrong password produces exactly
the same outcome — the same error kind and message — as login with an
unregistered email: the two failure runs are indistinguishable. -/
theorem login_failure_indistinguishable
    (secret : String) (now ttl : Nat) (db : List User) (u : User)
    (e1 p1 e2 p2 : String)
    (hreg : findByEmail db e1 = some u)
    (hwrong : verifyPassword p1 u.password = false)
    (habsent : findByEmail db e2 = none) :
    login secret now ttl db e1 p1 = login secret now ttl db e2 p2 ∧
    login secret now ttl db e1 p1 =
      .error (.invalidCredentials "Invalid credentials") := by
  simp [login, hreg, hwrong, habsent]

/-- C2 witness: a store with one registered user; a wrong-password run and
a no-such-email run coincide on the undifferentiated failure. -/
theorem login_failure_indistinguishable_witness :
    login "sec" 0 7 [⟨"u1", "a@b.com", some "A", ⟨"s", "pw1234"⟩, 0, 0⟩]
        "a@b.com" "wrongpw" =
      login "sec" 0 7 [⟨"u1", "a@b.com", some "A", ⟨"s", "pw1234"⟩, 0, 0⟩]
        "c@d.com" "pw1234" ∧
    login "sec" 0 7 [⟨"u1", "a@b.com", some "A", ⟨"s", "pw1234"⟩, 0, 0⟩]
        "a@b.com" "wrongpw" =
      .error (.invalidCredentials "Invalid credentials") :=
  login_failure_indistinguishable "sec" 0 7
    [⟨"u1", "a@b.com", some "A", ⟨"s", "pw1234"⟩, 0, 0⟩]
    ⟨"u1", "a@b.com", some "A", ⟨"s", "pw1234"⟩, 0, 0⟩
    "a@b.com" "wrongpw" "c@d.com" "pw1234"
    (by decide) (by decide) (by decide)

/-- C3: a token minted with a user id as subject, verified by the Token
Guard before its expiry under the same secret, resolves to exactly that
id. -/
theorem minted_token_roundtrip
    (secret : String) (now ttl now2 : Nat) (userId : String)
    (hlive : now2 < now + ttl) :
    authenticate secret now2 (.bearer (mintToken secret now ttl userId)) =
      .verified userId := by
  simp [authenticate, mintToken, signToken, verifyToken, hlive]

/-- C3 witness: a token minted at time 0 with a 10-unit lifetime resolves
at time 5 to the id it was minted for. -/
theorem minted_token_roundtrip_witness :
    5 < 0 + 10 ∧
    authenticate "sec" 5 (.bearer (mintToken "sec" 0 10 "u1")) =
      .verified "u1" :=
  ⟨by decide, minted_token_roundtrip "sec" 0 10 5 "u1" (by decide)⟩

/-- C4: a token whose `expiresAt` is earlier than the verification time is
rejected by the Token Guard even though its signature is valid (it was
signed under the guard's own secret). -/
theorem expired_token_rejected
    (secret : String) (now : Nat) (c : Claim)
    (hexp : c.expiresAt < now) :
    authenticate secret now (.bearer (signToken secret c)) =
      .rejected 401 "unauthenticated" := by
  have hnot : ¬ now < c.expiresAt := by omega
  simp [authenticate, signToken, verifyToken, hnot]

/-- C4 witness: a correctly signed token that expired at time 1 is
rejected at time 2. -/
theorem expired_token_rejected_witness :
    (1 : Nat) < 2 ∧
    authenticate "sec" 2 (.bearer (signToken "sec" ⟨"u1", 0, 1⟩)) =
      .rejected 401 "unauthenticated" :=
  ⟨by decide, expired_token_rejected "sec" 2 ⟨"u1", 0, 1⟩ (by decide)⟩

/-- C5: a token signed under a secret different from the guard's
configured secret is rejected, whatever expiry it claims. -/
theorem wrong_secret_rejected
    (guardSecret otherSecret : String) (now : Nat) (c : Claim)
    (hne : otherSecret ≠ guardSecret) :
    authenticate guardSecret now (.bearer (signToken otherSecret c)) =
      .rejected 401 "unauthenticated" := by
  have hnot : ¬(otherSecret = guardSecret ∧ now < c.expiresAt) :=
    fun hand => hne hand.1
  simp [authenticate, signToken, verifyToken, hnot]

/-- C5 witness: a token signed under secret "evil", claiming a far-future
expiry, is rejected by a guard configured with secret "sec". -/
theorem wrong_secret_rejected_witness :
    ("evil" : String) ≠ "sec" ∧
    authenticate "sec" 0 (.bearer (signToken "evil" ⟨"u1", 0, 1000⟩)) =
      .rejected 401 "unauthenticated" :=
  ⟨by decide, wrong_secret_rejected "sec" "evil" 0 ⟨"u1", 0, 1000⟩ (by decide)⟩

/-- C6: registering a fresh, valid (email, password) pair and then
logging in with the same pair both succeed, and both return the same
user id. -/
theorem register_then_login_same_id
    (secret secret2 : String) (now ttl now2 ttl2 : Nat)
    (freshId salt : String) (db : List User)
    (email password : String) (name : Option String)
    (habsent : findByEmail db email = none)
    (hemail : validEmail email = true)
    (hpw : password.isEmpty = false) :
    resultId (register secret now ttl freshId salt db email password name).2 =
      some freshId ∧
    resultId (login secret2 now2 ttl2
      (register secret now ttl freshId salt db email password name).1
      email password) = some freshId := by
  have hreg : register secret now ttl freshId salt db email password name =
      (db ++ [⟨freshId, email, name, ⟨salt, password⟩, now, now⟩],
       .ok ⟨⟨freshId, email, name, now⟩, mintToken secret now ttl freshId⟩) := by
    simp [register, habsent, hemail, hpw, hashPassword]
  rw [hreg]
  refine ⟨rfl, ?_⟩
  have hfind : findByEmail
      (db ++ [⟨freshId, email, name, ⟨salt, password⟩, now, now⟩]) email =
      some ⟨freshId, email, name, ⟨salt, password⟩, now, now⟩ := by
    rw [findByEmail_append db _ email habsent]
    simp [findByEmail, List.find?]
  simp [login, hfind, verifyPassword, resultId]

/-- C6 witness: registering `a@b.com` with password `pw1234` in an empty
store, then logging in with the same pair, both yield id `u1`. -/
theorem register_then_login_same_id_witness :
    findByEmail [] "a@b.com" = none ∧
    validEmail "a@b.com" = true ∧
    ("pw1234" : String).isEmpty = false ∧
    (resultId (register "sec" 0 7 "u1" "s" [] "a@b.com" "pw1234"
        (some "A")).2 = some "u1" ∧
     resultId (login "sec2" 3 9 (register "sec" 0 7 "u1" "s" [] "a@b.com"
        "pw1234" (some "A")).1 "a@b.com" "pw1234") = some "u1") :=
  ⟨by decide, by decide, by decide,
    register_then_login_same_id "sec" "sec2" 0 7 3 9 "u1" "s" []
      "a@b.com" "pw1234" (some "A") (by decide) (by decide) (by decide)⟩

/-- C7: a second `register` with an already-registered email fails with
the conflict error and returns the store unchanged: no second row is
created. -/
theorem duplicate_register_conflict
    (secret : String) (now ttl : Nat) (freshId salt : String)
    (db : List User) (u : User) (email password : String)
    (name : Option String)
    (hexists : findByEmail db email = some u) :
    register secret now ttl freshId salt db email password name =
      (db, .error (.conflict "Email already registered")) := by
  simp [register, hexists]

/-- C7 witness: re-registering `a@b.com` (with a different password) in a
store already holding it fails with conflict and leaves the store as it
was. -/
theorem duplicate_register_conflict_witness :
    findByEmail [⟨"u1", "a@b.com", some "A", ⟨"s", "pw1234"⟩, 0, 0⟩]
        "a@b.com" =
      some ⟨"u1", "a@b.com", some "A", ⟨"s", "pw1234"⟩, 0, 0⟩ ∧
    register "sec" 5 7 "u2" "s2"
        [⟨"u1", "a@b.com", some "A", ⟨"s", "pw1234"⟩, 0, 0⟩]
        "a@b.com" "other" (some "B") =
      ([⟨"u1", "a@b.com", some "A", ⟨"s", "pw1234"⟩, 0, 0⟩],
       .error (.conflict "Email already registered")) :=
  ⟨by decide,
    duplicate_register_conflict "sec" 5 7 "u2" "s2"
      [⟨"u1", "a@b.com", some "A", ⟨"s", "pw1234"⟩, 0, 0⟩]
      ⟨"u1", "a@b.com", some "A", ⟨"s", "pw1234"⟩, 0, 0⟩
      "a@b.com" "other" (some "B") (by decide)⟩

/-- C9: a `GET /api/users` request with no authorization header, or with a
malformed one, is answered 401 unauthenticated by the Token Guard, and
the response does not depend on the storage result — the `getUsers`
handler never runs. -/
theorem users_route_rejects_missing_header
    (secret : String) (now : Nat)
    (fetched : Except StoreError (List User)) (raw : String) :
    getUsersRoute secret now .missing fetched =
      ⟨401, .errObj "unauthenticated"⟩ ∧
    getUsersRoute secret now (.malformed raw) fetched =
      ⟨401, .errObj "unauthenticated"⟩ :=
  ⟨rfl, rfl⟩

end Boilerplate
